import Mathlib

/-!
Shallow embedding of the user-management service
(`validators.py`, `database.py`, `app.py`) and proofs about it.

Python strings are modelled as Lean `String` (a list of unicode code
points, which matches Python's `len`/indexing on the inputs that occur
here).  `str.strip()` is modelled on the ASCII whitespace set
`[ \t\n\r\x0b\x0c]`, and `str.lower()` / SQLite's `LIKE` case folding on
ASCII letters; all data validated by this service is ASCII, so the
restriction is invisible.  Fallible Python functions raising
`ValidationError`/`ValueError` become `Except String`.
-/

namespace UserService

/-- The whitespace set of Python's `str.strip()` and of the regex class
`\s` (ASCII fragment): space, tab, newline, carriage return, vertical
tab, form feed. -/
def pyIsSpace (c : Char) : Bool :=
  c == ' ' || c == '\t' || c == '\n' || c == '\r' || c == '\x0b' || c == '\x0c'

/-- Python `str.strip()`: drop leading and trailing whitespace. -/
def pyStrip (s : String) : String :=
  ⟨((s.toList.dropWhile pyIsSpace).reverse.dropWhile pyIsSpace).reverse⟩

/-- Python `str.lower()` on ASCII letters. -/
def strLower (s : String) : String :=
  ⟨s.toList.map Char.toLower⟩

/-- Character class of the regex `[a-zA-Z\s\-']` used by
`validate_name` and `validate_search_name` in `validators.py`. -/
def nameCharOk (c : Char) : Bool :=
  c.isAlpha || pyIsSpace c || c == '-' || c == '\''

/-- `UserValidator.validate_name` (validators.py lines 26-44). -/
def validate_name (name : String) : Except String String :=
  if name = "" then .error "Name is required and must be a string"
  else
    let n := pyStrip name
    if n.length < 2 then .error "Name must be at least 2 characters long"
    else if n.length > 100 then .error "Name must be less than 100 characters"
    else if !(n.toList.all nameCharOk) then
      .error "Name can only contain letters, spaces, hyphens, and apostrophes"
    else .ok n

/-- `UserValidator.validate_password` (validators.py lines 46-65). -/
def validate_password (password : String) : Except String String :=
  if password = "" then .error "Password is required and must be a string"
  else if password.length < 8 then .error "Password must be at least 8 characters long"
  else if password.length > 128 then .error "Password must be less than 128 characters"
  else if !(password.toList.any Char.isAlpha) then
    .error "Password must contain at least one letter"
  else if !(password.toList.any Char.isDigit) then
    .error "Password must contain at least one number"
  else .ok password

/-- No two adjacent underscores in a digit/underscore group. -/
def noDoubleUnderscore : List Char → Bool
  | [] => true
  | [_] => true
  | a :: b :: rest => !(a == '_' && b == '_') && noDoubleUnderscore (b :: rest)

/-- Base-10 value of a digit string, skipping the underscores that were
already checked to sit between digits. -/
def digitsVal (cs : List Char) : Nat :=
  cs.foldl (fun a c => if c.isDigit then a * 10 + (c.toNat - 48) else a) 0

/-- Python `int(str)` on a stripped character list: optional sign, then a
nonempty group of decimal digits in which each underscore lies between
two digits. -/
def pyIntOfList (cs : List Char) : Option Int :=
  let signBody : Int × List Char :=
    match cs with
    | '+' :: rest => (1, rest)
    | '-' :: rest => (-1, rest)
    | _ => (1, cs)
  let body := signBody.2
  if body ≠ [] &&
     (match body.head? with | some c => c.isDigit | none => false) &&
     (match body.getLast? with | some c => c.isDigit | none => false) &&
     body.all (fun c => c.isDigit || c == '_') &&
     noDoubleUnderscore body
  then some (signBody.1 * (digitsVal body : Int))
  else none

/-- Python's `int` constructor on strings (ASCII fragment): surrounding
whitespace is stripped, then sign and underscore-grouped digits. -/
def pyInt (s : String) : Option Int :=
  pyIntOfList (pyStrip s).toList

/-- `UserValidator.validate_user_id` (validators.py lines 67-79).  The
`ValidationError` raised for a nonpositive value inside the `try` block
is not caught by the `except ValueError` clause (`ValidationError`
derives from `Exception`, not `ValueError`), so the "positive integer"
message survives. -/
def validate_user_id (user_id : String) : Except String Int :=
  if user_id = "" then .error "User ID is required"
  else
    match pyInt user_id with
    | none => .error "User ID must be a valid integer"
    | some n =>
      if n ≤ 0 then .error "User ID must be a positive integer"
      else .ok n

/-- `UserValidator.validate_search_name` (validators.py lines 81-99). -/
def validate_search_name (name : String) : Except String String :=
  if name = "" then .error "Search name is required and must be a string"
  else
    let n := pyStrip name
    if n.length < 1 then .error "Search name cannot be empty"
    else if n.length > 50 then .error "Search name must be less than 50 characters"
    else if !(n.toList.all nameCharOk) then
      .error "Search name can only contain letters, spaces, hyphens, and apostrophes"
    else .ok n

/-- Modelled from the spec: the syntactic validity check of the external
`email_validator` library (not part of this repository's sources) —
"local-part + domain with at least one dot, per standard email grammar".
For the ASCII emails this development uses, the library's `normalized`
form of an already stripped and lowercased address is the address
itself. -/
def email_valid (e : String) : Bool :=
  let cs := e.toList
  let l := cs.takeWhile (fun c => !(c == '@'))
  match cs.dropWhile (fun c => !(c == '@')) with
  | '@' :: domain =>
    !l.isEmpty && !domain.isEmpty && !(domain.contains '@') &&
    domain.contains '.' && domain.head? != some '.' && domain.getLast? != some '.'
  | _ => false

/-- `UserValidator.validate_email` (validators.py lines 12-24): strip,
lowercase, then the library's syntax check; returns the normalized
form. -/
def validate_email (email : String) : Except String String :=
  if email = "" then .error "Email is required and must be a string"
  else
    let e := strLower (pyStrip email)
    if email_valid e then .ok e
    else .error "Invalid email format"

/-! ## Account store (`database.py`) -/

/-- A row of the `users` table (schema in `init_database`). -/
structure UserRow where
  id : Int
  name : String
  email : String
  password_hash : String
  created_at : String
  updated_at : String
deriving DecidableEq, Repr

/-- The SQLite database: the `users` rows plus the autoincrement
counter. -/
structure DB where
  rows : List UserRow
  nextId : Int
deriving DecidableEq, Repr

/-- A JSON scalar appearing in a user dict. -/
inductive Value0 where
  | str (s : String)
  | int (i : Int)
deriving DecidableEq, Repr

/-- The `data` payload of a response: a single user dict or a list of
user dicts, exactly the two shapes the handlers produce. -/
inductive Data where
  | dict (kvs : List (String × Value0))
  | list (ds : List (List (String × Value0)))
deriving DecidableEq, Repr

/-- A value of the response envelope: a string or a `data` payload. -/
inductive Field where
  | str (s : String)
  | data (d : Data)
deriving DecidableEq, Repr

/-- An HTTP response: the JSON body (a Python dict in insertion order)
and the status code. -/
structure Response where
  body : List (String × Field)
  code : Nat
deriving DecidableEq, Repr

/-- `dict(user)` for a `SELECT *` row: all six columns, including
`password_hash`. -/
def rowToDict (r : UserRow) : List (String × Value0) :=
  [("id", .int r.id), ("name", .str r.name), ("email", .str r.email),
   ("password_hash", .str r.password_hash),
   ("created_at", .str r.created_at), ("updated_at", .str r.updated_at)]

/-- `dict(user)` for a `SELECT id, name, email, created_at, updated_at`
row: the hash column is never selected. -/
def rowPublic (r : UserRow) : List (String × Value0) :=
  [("id", .int r.id), ("name", .str r.name), ("email", .str r.email),
   ("created_at", .str r.created_at), ("updated_at", .str r.updated_at)]

/-- Python's `dict.pop(key, None)`. -/
def dictPop (kvs : List (String × Value0)) (key : String) : List (String × Value0) :=
  kvs.eraseP (fun kv => kv.1 == key)

/-- The integrity constraints of the `users` schema whose violation
raises `sqlite3.IntegrityError`: the UNIQUE constraint on `email` and
the NOT NULL constraints on `name`, `email`, `password_hash`. -/
inductive IntegrityKind where
  | uniqueEmail
  | notNullName
  | notNullEmail
  | notNullPasswordHash
deriving DecidableEq, Repr

/-- The `INSERT INTO users (name, email, password_hash)` statement:
binding `None` to a NOT NULL column or reusing an existing email raises
an `IntegrityError`; otherwise the row is appended with the
autoincrement id and `CURRENT_TIMESTAMP`. -/
def sqlite_insert (db : DB) (name email password_hash : Option String)
    (now : String) : Except IntegrityKind (DB × UserRow) :=
  match name, email, password_hash with
  | none, _, _ => .error .notNullName
  | some _, none, _ => .error .notNullEmail
  | some _, some _, none => .error .notNullPasswordHash
  | some n, some e, some h =>
    if db.rows.any (fun r => r.email == e) then .error .uniqueEmail
    else
      let row : UserRow := ⟨db.nextId, n, e, h, now, now⟩
      .ok ({ rows := db.rows ++ [row], nextId := db.nextId + 1 }, row)

/-- The `UPDATE users SET ... WHERE id = ?` statement built by
`update_user`: no fields means no query; no matching row means
`rowcount == 0`; giving some other row's email violates the UNIQUE
constraint; otherwise the row is rewritten and re-read by
`get_user_by_id`. -/
def sqlite_update (db : DB) (uid : Int) (name email : Option String)
    (now : String) : Except IntegrityKind (DB × Option UserRow) :=
  if name.isNone && email.isNone then .ok (db, none)
  else
    match db.rows.find? (fun r => r.id == uid) with
    | none => .ok (db, none)
    | some r =>
      let newEmail := email.getD r.email
      if db.rows.any (fun q => !(q.id == uid) && q.email == newEmail) then
        .error .uniqueEmail
      else
        let r' : UserRow :=
          { r with name := name.getD r.name, email := newEmail, updated_at := now }
        .ok ({ db with rows := db.rows.map (fun q => if q.id == uid then r' else q) },
             some r')

/-- `DatabaseManager.create_user` (database.py lines 54-80) with the
raw column bindings exposed: `except sqlite3.IntegrityError` turns
every integrity violation, whatever the constraint, into
`ValueError("Email already exists")`; on success the returned dict has
`id`, `name`, `email`, `created_at` and no hash. -/
def create_user_db (hash : String → String) (db : DB)
    (name email password : Option String) (now : String) :
    Except String (DB × List (String × Value0)) :=
  match sqlite_insert db name email (password.map hash) now with
  | .error _ => .error "Email already exists"
  | .ok (db', row) =>
    .ok (db', [("id", .int row.id), ("name", .str row.name),
               ("email", .str row.email), ("created_at", .str now)])

/-- `DatabaseManager.create_user` as called from the handler: all three
parameters are strings. -/
def create_user (hash : String → String) (db : DB)
    (name email password : String) (now : String) :
    Except String (DB × List (String × Value0)) :=
  create_user_db hash db (some name) (some email) (some password) now

/-- `DatabaseManager.get_user_by_id` (database.py lines 82-95):
`SELECT *`, so the dict includes `password_hash`. -/
def get_user_by_id (db : DB) (uid : Int) : Option (List (String × Value0)) :=
  (db.rows.find? (fun r => r.id == uid)).map rowToDict

/-- `DatabaseManager.get_all_users` (database.py lines 112-123):
selects only the five public columns. -/
def get_all_users (db : DB) : List (List (String × Value0)) :=
  db.rows.map rowPublic

/-- `DatabaseManager.update_user` (database.py lines 125-160): the
`except sqlite3.IntegrityError` clause again collapses every integrity
violation to `ValueError("Email already exists")`; the success dict is
the `SELECT *` re-read, hash included. -/
def update_user (db : DB) (uid : Int) (name email : Option String)
    (now : String) : Except String (DB × Option (List (String × Value0))) :=
  match sqlite_update db uid name email now with
  | .error _ => .error "Email already exists"
  | .ok (db', none) => .ok (db', none)
  | .ok (db', some r) => .ok (db', some (rowToDict r))

/-- `DatabaseManager.delete_user` (database.py lines 162-177). -/
def delete_user (db : DB) (uid : Int) : DB × Bool :=
  ({ db with rows := db.rows.filter (fun r => !(r.id == uid)) },
   db.rows.any (fun r => r.id == uid))

/-- `pat` is a prefix of `s`. -/
def listStartsWith : List Char → List Char → Bool
  | [], _ => true
  | _ :: _, [] => false
  | p :: ps, c :: cs => p == c && listStartsWith ps cs

/-- `pat` occurs as a contiguous sublist of `s`. -/
def listContains (pat : List Char) : List Char → Bool
  | [] => listStartsWith pat []
  | c :: cs => listStartsWith pat (c :: cs) || listContains pat cs

/-- Case-insensitive (ASCII, SQLite `LIKE` default) substring test:
`name LIKE '%term%'` for a `term` free of `%`/`_` wildcards. -/
def likeMatch (term s : String) : Bool :=
  listContains (strLower term).toList (strLower s).toList

/-- `DatabaseManager.search_users_by_name` (database.py lines 179-193):
`LIKE`-filter on `name`, selecting only the five public columns. -/
def search_users_by_name (db : DB) (name : String) :
    List (List (String × Value0)) :=
  (db.rows.filter (fun r => likeMatch name r.name)).map rowPublic

/-- `DatabaseManager.authenticate_user` (database.py lines 195-210):
look up by email, verify the password against the stored hash, and
rebuild the dict without `password_hash`; both the unknown-email case
and the failed-verification case return `None`. -/
def authenticate_user (verify : String → String → Bool) (db : DB)
    (email password : String) : Option (List (String × Value0)) :=
  match db.rows.find? (fun r => r.email == email) with
  | none => none
  | some r =>
    if verify password r.password_hash then
      some [("id", .int r.id), ("name", .str r.name),
            ("email", .str r.email), ("created_at", .str r.created_at)]
    else none

/-! ## Request handlers (`app.py`) -/

/-- `create_error_response` (app.py lines 28-33): the body is the dict
literal `{"error": message, "status": "error"}` in insertion order. -/
def create_error_response (message : String) (status_code : Nat) : Response :=
  { body := [("error", .str message), ("status", .str "error")],
    code := status_code }

/-- `create_success_response` (app.py lines 35-43). -/
def create_success_response (data : Option Data) (message : String) :
    List (String × Field) :=
  let response := [("status", Field.str "success"), ("message", Field.str message)]
  match data with
  | some d => response ++ [("data", Field.data d)]
  | none => response

/-- `UserValidator.validate_create_user_data` (validators.py lines
101-118) once the three required keys are present: the field validators
run in the dict-literal order name, email, password. -/
def validate_create_user_data (name email password : String) :
    Except String (String × String × String) := do
  let n ← validate_name name
  let e ← validate_email email
  let p ← validate_password password
  pure (n, e, p)

/-- `UserValidator.validate_update_user_data` (validators.py lines
120-137): `none` models an absent key; at least one of the two fields
must be present and valid. -/
def validate_update_user_data (name email : Option String) :
    Except String (Option String × Option String) := do
  let n ← match name with
    | none => pure none
    | some s => (validate_name s).map some
  let e ← match email with
    | none => pure none
    | some s => (validate_email s).map some
  if n.isNone && e.isNone then
    throw "At least one field (name or email) must be provided for update"
  else pure (n, e)

/-- `UserValidator.validate_login_data` (validators.py lines 139-156)
with both keys present: the email is validated and normalized, the
password passes through unvalidated. -/
def validate_login_data (email password : String) :
    Except String (String × String) :=
  (validate_email email).map (fun e => (e, password))

/-- `GET /users` handler `get_all_users` (app.py lines 50-58). -/
def get_all_users_handler (db : DB) : Response :=
  { body := create_success_response (some (.list (get_all_users db)))
      "Users retrieved successfully",
    code := 200 }

/-- `GET /user/<user_id>` handler `get_user` (app.py lines 60-81): the
hash is popped from the `SELECT *` dict before responding. -/
def get_user_handler (db : DB) (user_id : String) : Response :=
  match validate_user_id user_id with
  | .error e => create_error_response e 400
  | .ok uid =>
    match get_user_by_id db uid with
    | some user =>
      { body := create_success_response
          (some (.dict (dictPop user "password_hash"))) "User retrieved successfully",
        code := 200 }
    | none => create_error_response "User not found" 404

/-- `POST /users` handler `create_user` (app.py lines 83-110):
`ValidationError` maps to 400, the duplicate-email `ValueError` to
409. -/
def create_user_handler (hash : String → String) (db : DB)
    (name email password now : String) : DB × Response :=
  match validate_create_user_data name email password with
  | .error e => (db, create_error_response e 400)
  | .ok (n, e, p) =>
    match create_user hash db n e p now with
    | .error msg => (db, create_error_response msg 409)
    | .ok (db', user) =>
      (db', { body := create_success_response (some (.dict user))
                "User created successfully",
              code := 201 })

/-- `PUT /user/<user_id>` handler `update_user` (app.py lines 112-146):
validation errors map to 400, the duplicate-email `ValueError` to 409,
an absent row to 404; on success the hash is popped from the re-read
dict. -/
def update_user_handler (db : DB) (user_id : String)
    (name email : Option String) (now : String) : DB × Response :=
  match validate_user_id user_id with
  | .error e => (db, create_error_response e 400)
  | .ok uid =>
    match validate_update_user_data name email with
    | .error e => (db, create_error_response e 400)
    | .ok (n, em) =>
      match update_user db uid n em now with
      | .error msg => (db, create_error_response msg 409)
      | .ok (db', some user) =>
        (db', { body := create_success_response
                  (some (.dict (dictPop user "password_hash")))
                  "User updated successfully",
                code := 200 })
      | .ok (db', none) => (db', create_error_response "User not found" 404)

/-- `DELETE /user/<user_id>` handler `delete_user` (app.py lines
148-167). -/
def delete_user_handler (db : DB) (user_id : String) : DB × Response :=
  match validate_user_id user_id with
  | .error e => (db, create_error_response e 400)
  | .ok uid =>
    match delete_user db uid with
    | (db', true) =>
      (db', { body := create_success_response none "User deleted successfully",
              code := 200 })
    | (db', false) => (db', create_error_response "User not found" 404)

/-- `GET /search` handler `search_users` (app.py lines 169-189):
`request.args.get('name')` is `None` when absent, and `if not name`
also catches the empty string. -/
def search_users_handler (db : DB) (name : Option String) : Response :=
  match name with
  | none => create_error_response "Name parameter is required" 400
  | some nm =>
    if nm = "" then create_error_response "Name parameter is required" 400
    else
      match validate_search_name nm with
      | .error e => create_error_response e 400
      | .ok v =>
        { body := create_success_response (some (.list (search_users_by_name db v)))
            "Search completed successfully",
          code := 200 }

/-- `POST /login` handler `login` (app.py lines 191-217): every absent
authentication result, wrong password or unknown email alike, becomes
the one 401 response. -/
def login_handler (verify : String → String → Bool) (db : DB)
    (email password : String) : Response :=
  match validate_login_data email password with
  | .error e => create_error_response e 400
  | .ok (em, pw) =>
    match authenticate_user verify db em pw with
    | some user =>
      { body := create_success_response (some (.dict user)) "Login successful",
        code := 200 }
    | none => create_error_response "Invalid email or password" 401

/-! ## Derived notions used in the statements -/

/-- A dict has no `password_hash` key. -/
def dictNoHash (kvs : List (String × Value0)) : Bool :=
  kvs.all (fun kv => !(kv.1 == "password_hash"))

/-- A data payload mentions `password_hash` nowhere. -/
def dataNoHash : Data → Bool
  | .dict kvs => dictNoHash kvs
  | .list ds => ds.all dictNoHash

/-- An envelope value mentions `password_hash` nowhere. -/
def fieldNoHash : Field → Bool
  | .str _ => true
  | .data d => dataNoHash d

/-- No user dict anywhere in the response carries a `password_hash`
key. -/
def respNoHash (r : Response) : Bool :=
  r.body.all fun kv => fieldNoHash kv.2

/-! ## Concrete fixtures -/

/-- A toy bcrypt stand-in used only to instantiate the hash parameter in
concrete runs. -/
def hW : String → String := fun p => "h:" ++ p

/-- Verification matching `hW`. -/
def vfW : String → String → Bool := fun p h => h == "h:" ++ p

/-- The empty database after `init_database`. -/
def emptyDB : DB := ⟨[], 1⟩

/-- A stored user for authentication runs. -/
def rowW : UserRow := ⟨1, "Alice", "alice@example.com", "h:pw1", "t", "t"⟩

/-- A one-user database. -/
def dbW : DB := ⟨[rowW], 2⟩

/-- The character set the spec text ascribes to `validate_name`:
letters, the space character (only), hyphen, apostrophe. -/
def claimNameChar (c : Char) : Bool :=
  c.isAlpha || c == ' ' || c == '-' || c == '\''

/-! ## Theorems -/

/-- C6: `validate_password` fails exactly when the input is empty, its
length is below 8 or above 128, it has no letter, or it has no digit;
on success it returns the password unchanged; the three concrete
examples behave as the spec says. -/
theorem c6_validate_password_characterization :
    (∀ s : String,
      (validate_password s = .ok s ↔
        (s ≠ "" ∧ 8 ≤ s.length ∧ s.length ≤ 128 ∧
         s.toList.any Char.isAlpha = true ∧ s.toList.any Char.isDigit = true))) ∧
    (∀ s t : String, validate_password s = .ok t → t = s) ∧
    validate_password "abc" = .error "Password must be at least 8 characters long" ∧
    validate_password "abcdefg1" = .ok "abcdefg1" ∧
    validate_password "12345678" = .error "Password must contain at least one letter" := by
  refine ⟨?_, ?_, rfl, rfl, rfl⟩
  · intro s
    unfold validate_password
    split_ifs with h1 h2 h3 h4 h5
    · simp [h1]
    · exact iff_of_false (by simp) (by intro h; omega)
    · exact iff_of_false (by simp) (by intro h; omega)
    · refine iff_of_false (by simp) ?_
      rintro ⟨-, -, -, ha, -⟩
      simp only [Bool.not_eq_true'] at h4
      rw [h4] at ha; cases ha
    · refine iff_of_false (by simp) ?_
      rintro ⟨-, -, -, -, hd⟩
      simp only [Bool.not_eq_true'] at h5
      rw [h5] at hd; cases hd
    · refine iff_of_true rfl ⟨h1, by omega, by omega, ?_, ?_⟩
      · simpa using h4
      · simpa using h5
  · intro s t h
    unfold validate_password at h
    split_ifs at h
    all_goals simp_all

/-- C6 witness: the characterization applied to a fresh concrete
password. -/
theorem c6_witness : validate_password "x1y2z3w4" = Except.ok "x1y2z3w4" :=
  (c6_validate_password_characterization.1 "x1y2z3w4").mpr (by decide)

/-- C5 counterexample: the claim says a name passes only when every
trimmed character is a letter, the space character, a hyphen or an
apostrophe, but the code's regex class is `\s`, so a name with an
embedded tab is accepted. -/
theorem c5_counterexample :
    ¬ (∀ s : String, (∃ t, validate_name s = .ok t) →
        (pyStrip s).toList.all claimNameChar = true) :=
  fun h => absurd (h "a\tb" ⟨"a\tb", rfl⟩) (by decide)

/-- On a nonempty input, `validate_name` is the chain of checks on the
stripped string (the `let` of the source unfolded). -/
theorem validate_name_ne (s : String) (hs : s ≠ "") :
    validate_name s =
      (if (pyStrip s).length < 2 then
         Except.error "Name must be at least 2 characters long"
       else if (pyStrip s).length > 100 then
         Except.error "Name must be less than 100 characters"
       else if !((pyStrip s).toList.all nameCharOk) then
         Except.error "Name can only contain letters, spaces, hyphens, and apostrophes"
       else Except.ok (pyStrip s)) := by
  unfold validate_name
  rw [if_neg hs]

/-- C5 (amended): `validate_name` fails on the empty string; otherwise
it trims and fails exactly when the trimmed length is below 2 or above
100 or some trimmed character is outside `[A-Za-z\s\-']` — letters, any
whitespace character (space, tab, newline, ...), hyphen, apostrophe;
on success it returns the trimmed string.  A tabbed name is accepted. -/
theorem c5_amended_validate_name :
    (∀ s : String,
      (s = "" → validate_name s = .error "Name is required and must be a string") ∧
      (s ≠ "" →
        ((∃ t, validate_name s = .ok t) ↔
          (2 ≤ (pyStrip s).length ∧ (pyStrip s).length ≤ 100 ∧
           (pyStrip s).toList.all nameCharOk = true))) ∧
      (∀ t, validate_name s = .ok t → t = pyStrip s)) ∧
    validate_name "a\tb" = .ok "a\tb" := by
  refine ⟨fun s => ⟨?_, ?_, ?_⟩, rfl⟩
  · intro h; simp [validate_name, h]
  · intro hs
    rw [validate_name_ne s hs]
    split_ifs with h2 h3 h4
    · exact iff_of_false (by simp) (by intro h; omega)
    · exact iff_of_false (by simp) (by intro h; omega)
    · refine iff_of_false (by simp) ?_
      rintro ⟨-, -, ha⟩
      simp only [Bool.not_eq_true'] at h4
      rw [h4] at ha; cases ha
    · exact iff_of_true ⟨pyStrip s, rfl⟩ ⟨by omega, by omega, by simpa using h4⟩
  · intro t h
    by_cases hs : s = ""
    · rw [hs] at h
      rw [show validate_name "" = .error "Name is required and must be a string" from rfl] at h
      cases h
    · rw [validate_name_ne s hs] at h
      split_ifs at h
      all_goals simp_all

/-- C5 witness: the amended characterization applied to a concrete
name with surrounding whitespace. -/
theorem c5_witness : ∃ t, validate_name " Mary O'Neil " = Except.ok t :=
  ((c5_amended_validate_name.1 " Mary O'Neil ").2.1 (by decide)).mpr (by decide)

/-- C7: `validate_user_id` fails with the "required" message on the
empty string, the "valid integer" message when `int()` cannot parse,
and the "positive integer" message when the parsed value is
nonpositive (that `ValidationError` is not swallowed by the
`except ValueError` clause); otherwise it returns the parsed value. -/
theorem c7_validate_user_id_characterization :
    ∀ s : String,
      (s = "" → validate_user_id s = .error "User ID is required") ∧
      (s ≠ "" → pyInt s = none →
        validate_user_id s = .error "User ID must be a valid integer") ∧
      (∀ n : Int, s ≠ "" → pyInt s = some n → n ≤ 0 →
        validate_user_id s = .error "User ID must be a positive integer") ∧
      (∀ n : Int, s ≠ "" → pyInt s = some n → 0 < n →
        validate_user_id s = .ok n) := by
  intro s
  refine ⟨?_, ?_, ?_, ?_⟩
  · intro h; simp [validate_user_id, h]
  · intro h1 h2; simp [validate_user_id, h1, h2]
  · intro n h1 h2 h3; simp [validate_user_id, h1, h2, h3]
  · intro n h1 h2 h3
    simp only [validate_user_id, if_neg h1, h2]
    rw [if_neg (by omega)]

/-- C7 witness: the three concrete examples from the spec. -/
theorem c7_witness :
    validate_user_id "-1" = Except.error "User ID must be a positive integer" ∧
    validate_user_id "abc" = Except.error "User ID must be a valid integer" ∧
    validate_user_id "42" = Except.ok 42 :=
  ⟨(c7_validate_user_id_characterization "-1").2.2.1 (-1) (by decide) (by decide) (by decide),
   (c7_validate_user_id_characterization "abc").2.1 (by decide) (by decide),
   (c7_validate_user_id_characterization "42").2.2.2 42 (by decide) (by decide) (by decide)⟩

/-- C10: every string that `int()` parses to a positive value is
accepted by `validate_user_id` — including forms with surrounding
whitespace, an explicit sign and underscore digit separators, such as
`" +4_2 "`, which yields 42. -/
theorem c10_int_parses_noncanonical_forms :
    (∀ (s : String) (n : Int), pyInt s = some n → 0 < n →
      validate_user_id s = .ok n) ∧
    pyInt " +4_2 " = some 42 ∧
    validate_user_id " +4_2 " = Except.ok 42 := by
  refine ⟨?_, rfl, rfl⟩
  intro s n h hpos
  have hs : s ≠ "" := by
    rintro rfl
    rw [show pyInt "" = none from rfl] at h
    cases h
  simp only [validate_user_id, if_neg hs, h]
  rw [if_neg (by omega)]

/-- C10 witness: the parsing lemma applied to another noncanonical
form, with a sign and an underscore separator. -/
theorem c10_witness : validate_user_id " +1_0 " = Except.ok 10 :=
  c10_int_parses_noncanonical_forms.1 " +1_0 " 10 (by decide) (by decide)

/-- C4 counterexample: the 400 error produced by `GET /user/abc` has
status `"error"` but no `message` key at all — the description sits
under the key `error`. -/
theorem c4_counterexample :
    (get_user_handler emptyDB "abc").code = 400 ∧
    (get_user_handler emptyDB "abc").body.lookup "status" = some (Field.str "error") ∧
    (get_user_handler emptyDB "abc").body.lookup "message" = none :=
  ⟨rfl, rfl, rfl⟩

/-- C4 (amended): every error response has the envelope
`\x7berror: message, status: "error"\x7d` — the human-readable
description is carried under a key named `error`, not `message`, and no
`message` key is present. -/
theorem c4_amended_error_envelope :
    ∀ (msg : String) (code : Nat),
      (create_error_response msg code).code = code ∧
      (create_error_response msg code).body.lookup "status" = some (Field.str "error") ∧
      (create_error_response msg code).body.lookup "error" = some (Field.str msg) ∧
      (create_error_response msg code).body.lookup "message" = none :=
  fun _ _ => ⟨rfl, rfl, rfl, rfl⟩

/-- Error responses carry no `data`, hence no hash. -/
theorem respNoHash_error (m : String) (c : Nat) :
    respNoHash (create_error_response m c) = true := rfl

/-- The five selected public columns exclude the hash. -/
theorem dictNoHash_rowPublic (r : UserRow) : dictNoHash (rowPublic r) = true := rfl

/-- Popping `password_hash` from a full `SELECT *` dict leaves no hash
key. -/
theorem dictNoHash_pop (r : UserRow) :
    dictNoHash (dictPop (rowToDict r) "password_hash") = true := rfl

/-- A list of public rows has no hash anywhere. -/
theorem dataNoHash_publicList (rs : List UserRow) :
    dataNoHash (.list (rs.map rowPublic)) = true := by
  simp only [dataNoHash, List.all_eq_true]
  intro d hd
  obtain ⟨r, -, rfl⟩ := List.mem_map.mp hd
  exact dictNoHash_rowPublic r

/-- A success response whose data is a list of public rows has no
hash. -/
theorem respNoHash_success_list (rs : List UserRow) (msg : String) (c : Nat) :
    respNoHash { body := create_success_response (some (.list (rs.map rowPublic))) msg,
                 code := c } = true := by
  simp only [respNoHash, create_success_response, List.cons_append, List.nil_append,
             List.all_cons, List.all_nil, fieldNoHash, Bool.and_true, Bool.true_and]
  exact dataNoHash_publicList rs

/-- A success response whose data is a hash-free dict has no hash. -/
theorem respNoHash_success_dict (kvs : List (String × Value0)) (msg : String)
    (c : Nat) (h : dictNoHash kvs = true) :
    respNoHash { body := create_success_response (some (.dict kvs)) msg,
                 code := c } = true := by
  simp only [respNoHash, create_success_response, List.cons_append, List.nil_append,
             List.all_cons, List.all_nil, fieldNoHash, dataNoHash, Bool.and_true,
             Bool.true_and]
  exact h

/-- `create_user` only ever hands back the four-field dict without the
hash. -/
theorem create_user_ok_noHash (hash : String → String) (db : DB)
    (name email password now : String) (db' : DB)
    (user : List (String × Value0)) :
    create_user hash db name email password now = .ok (db', user) →
    dictNoHash user = true := by
  intro hh
  unfold create_user create_user_db at hh
  split at hh
  · cases hh
  · simp only [Except.ok.injEq, Prod.mk.injEq] at hh
    obtain ⟨-, rfl⟩ := hh
    rfl

/-- A successful update always returns the `SELECT *` re-read of some
row. -/
theorem update_user_ok_shape (db : DB) (uid : Int) (n e : Option String)
    (now : String) (db' : DB) (user : List (String × Value0)) :
    update_user db uid n e now = .ok (db', some user) →
    ∃ r, user = rowToDict r := by
  intro hh
  unfold update_user at hh
  split at hh
  · cases hh
  · simp at hh
  · rename_i db2 r heq
    simp only [Except.ok.injEq, Prod.mk.injEq, Option.some.injEq] at hh
    exact ⟨r, hh.2.symm⟩

/-- An authenticated user dict is the four public fields, hash
stripped. -/
theorem authenticate_user_ok_shape (verify : String → String → Bool)
    (db : DB) (email password : String) (u : List (String × Value0)) :
    authenticate_user verify db email password = some u →
    ∃ r, db.rows.find? (fun q => q.email == email) = some r ∧
      verify password r.password_hash = true ∧
      u = [("id", .int r.id), ("name", .str r.name),
           ("email", .str r.email), ("created_at", .str r.created_at)] := by
  intro h
  unfold authenticate_user at h
  split at h
  · cases h
  · rename_i r hf
    split at h
    · rename_i hv
      injection h with h
      exact ⟨r, hf, hv, h.symm⟩
    · cases h

/-- C1: no response of any handler — list-all, get-by-id, create,
update, search, login — ever carries a `password_hash` key in its
data: the create and login paths build the dict without it, list-all
and search select columns that exclude it, and the get/update handlers
pop it before responding. -/
theorem c1_no_password_hash_in_responses :
    ∀ (hash : String → String) (verify : String → String → Bool) (db : DB)
      (s name email password now q : String) (n e : Option String),
      respNoHash (get_all_users_handler db) = true ∧
      respNoHash (get_user_handler db s) = true ∧
      respNoHash ((create_user_handler hash db name email password now).2) = true ∧
      respNoHash ((update_user_handler db s n e now).2) = true ∧
      respNoHash (search_users_handler db (some q)) = true ∧
      respNoHash (login_handler verify db email password) = true := by
  intro hash verify db s name email password now q n e
  refine ⟨?_, ?_, ?_, ?_, ?_, ?_⟩
  · exact respNoHash_success_list db.rows "Users retrieved successfully" 200
  · unfold get_user_handler
    split
    · exact respNoHash_error _ 400
    · rename_i uid heq
      unfold get_user_by_id
      cases hf : db.rows.find? (fun r => r.id == uid) with
      | none => exact respNoHash_error _ 404
      | some r => exact respNoHash_success_dict _ _ 200 (dictNoHash_pop r)
  · unfold create_user_handler
    split
    · exact respNoHash_error _ 400
    · rename_i n' e' p' heq
      cases hc : create_user hash db n' e' p' now with
      | error msg => exact respNoHash_error _ 409
      | ok res =>
        obtain ⟨db', user⟩ := res
        exact respNoHash_success_dict _ _ 201
          (create_user_ok_noHash hash db n' e' p' now db' user hc)
  · unfold update_user_handler
    split
    · exact respNoHash_error _ 400
    · rename_i uid heq
      split
      · exact respNoHash_error _ 400
      · rename_i n' e' heq2
        cases hup : update_user db uid n' e' now with
        | error msg => exact respNoHash_error _ 409
        | ok res =>
          obtain ⟨db', user?⟩ := res
          cases user? with
          | none => exact respNoHash_error _ 404
          | some user =>
            obtain ⟨r, rfl⟩ := update_user_ok_shape db uid n' e' now db' user hup
            exact respNoHash_success_dict _ _ 200 (dictNoHash_pop r)
  · show respNoHash
      (if q = "" then create_error_response "Name parameter is required" 400
       else
         match validate_search_name q with
         | .error msg => create_error_response msg 400
         | .ok v =>
           { body := create_success_response
               (some (.list (search_users_by_name db v))) "Search completed successfully",
             code := 200 }) = true
    by_cases hq : q = ""
    · rw [if_pos hq]
      exact respNoHash_error _ 400
    · rw [if_neg hq]
      split
      · exact respNoHash_error _ 400
      · rename_i v heq
        exact respNoHash_success_list (db.rows.filter fun r => likeMatch v r.name)
          "Search completed successfully" 200
  · unfold login_handler
    split
    · exact respNoHash_error _ 400
    · rename_i em pw heq
      cases ha : authenticate_user verify db em pw with
      | none => exact respNoHash_error _ 401
      | some user =>
        obtain ⟨r, -, -, rfl⟩ := authenticate_user_ok_shape verify db em pw user ha
        exact respNoHash_success_dict _ _ 200 rfl

/-- C2: `authenticate_user` returns the same absent result (`none`)
when the email matches no stored user and when the email matches a user
whose password fails verification; the login handler maps any absent
result to the single 401 response "Invalid email or password"; on
success the returned record carries no hash and is built from the
matching row. -/
theorem c2_uniform_auth_failure :
    ∀ (verify : String → String → Bool) (db : DB) (email password : String),
      (db.rows.find? (fun q => q.email == email) = none →
        authenticate_user verify db email password = none) ∧
      (∀ r, db.rows.find? (fun q => q.email == email) = some r →
        verify password r.password_hash = false →
        authenticate_user verify db email password = none) ∧
      (∀ rawEmail em, validate_email rawEmail = .ok em →
        authenticate_user verify db em password = none →
        login_handler verify db rawEmail password =
          create_error_response "Invalid email or password" 401) ∧
      (∀ u, authenticate_user verify db email password = some u →
        dictNoHash u = true ∧
        ∃ r, db.rows.find? (fun q => q.email == email) = some r ∧
          verify password r.password_hash = true) := by
  intro verify db email password
  refine ⟨?_, ?_, ?_, ?_⟩
  · intro h
    unfold authenticate_user
    rw [h]
  · intro r hf hv
    unfold authenticate_user
    rw [hf]
    simp only [hv, Bool.false_eq_true, if_false]
  · intro rawEmail em h1 h2
    unfold login_handler validate_login_data
    rw [h1]
    show (match authenticate_user verify db em password with
          | some user =>
            { body := create_success_response (some (.dict user)) "Login successful",
              code := 200 }
          | none => create_error_response "Invalid email or password" 401) =
      create_error_response "Invalid email or password" 401
    rw [h2]
  · intro u hu
    obtain ⟨r, hf, hv, rfl⟩ := authenticate_user_ok_shape verify db email password u hu
    exact ⟨rfl, r, hf, hv⟩

/-- C2 witness: on a concrete one-user store, an unknown email and a
wrong password both yield `none`, and the login handler answers with
the identical 401 response in both cases. -/
theorem c2_witness :
    authenticate_user vfW dbW "bob@example.com" "pw1" = none ∧
    authenticate_user vfW dbW "alice@example.com" "wrong" = none ∧
    login_handler vfW dbW "bob@example.com" "pw1" =
      create_error_response "Invalid email or password" 401 ∧
    login_handler vfW dbW "alice@example.com" "wrong" =
      create_error_response "Invalid email or password" 401 :=
  ⟨(c2_uniform_auth_failure vfW dbW "bob@example.com" "pw1").1 (by decide),
   (c2_uniform_auth_failure vfW dbW "alice@example.com" "wrong").2.1 rowW
     (by decide) (by decide),
   (c2_uniform_auth_failure vfW dbW "bob@example.com" "pw1").2.2.1
     "bob@example.com" "bob@example.com" (by rfl) (by decide),
   (c2_uniform_auth_failure vfW dbW "alice@example.com" "wrong").2.2.1
     "alice@example.com" "alice@example.com" (by rfl) (by decide)⟩

/-- Fixture rows for the search example. -/
def rowJohn : UserRow := ⟨1, "John Doe", "john@x.com", "hJ", "t", "t"⟩

/-- Fixture rows for the search example. -/
def rowJane : UserRow := ⟨2, "Jane Smith", "jane@x.com", "hA", "t", "t"⟩

/-- Fixture rows for the search example. -/
def rowBob : UserRow := ⟨3, "Bob Johnson", "bob@x.com", "hB", "t", "t"⟩

/-- The three-user database of the spec's search example. -/
def dbJohns : DB := ⟨[rowJohn, rowJane, rowBob], 4⟩

/-- C8: `search_users_by_name` returns exactly the public projections
of the stored rows whose name contains the term as a case-insensitive
substring, hash excluded; searching "john" on the John/Jane/Bob store
returns John Doe and Bob Johnson and not Jane Smith. -/
theorem c8_search_case_insensitive_substring :
    (∀ (db : DB) (term : String) (r : UserRow), r ∈ db.rows →
      likeMatch term r.name = true →
      rowPublic r ∈ search_users_by_name db term) ∧
    (∀ (db : DB) (term : String) (u : List (String × Value0)),
      u ∈ search_users_by_name db term →
      dictNoHash u = true ∧
      ∃ r, r ∈ db.rows ∧ likeMatch term r.name = true ∧ u = rowPublic r) ∧
    search_users_by_name dbJohns "john" = [rowPublic rowJohn, rowPublic rowBob] ∧
    likeMatch "john" rowJane.name = false := by
  refine ⟨?_, ?_, by decide, by decide⟩
  · intro db term r hr hm
    exact List.mem_map_of_mem rowPublic (List.mem_filter.mpr ⟨hr, hm⟩)
  · intro db term u hu
    obtain ⟨r, hrf, rfl⟩ := List.mem_map.mp hu
    obtain ⟨hr, hm⟩ := List.mem_filter.mp hrf
    exact ⟨dictNoHash_rowPublic r, r, hr, hm, rfl⟩

/-- C8 witness: the membership direction applied to Bob Johnson, whose
name contains "john" only case-insensitively. -/
theorem c8_witness : rowPublic rowBob ∈ search_users_by_name dbJohns "john" :=
  c8_search_case_insensitive_substring.1 dbJohns "john" rowBob (by decide) (by decide)

/-- On a nonempty input, `validate_email` is the validity test on the
stripped, lowercased address. -/
theorem validate_email_eq (e : String) (hs : e ≠ "") :
    validate_email e =
      (if email_valid (strLower (pyStrip e)) then .ok (strLower (pyStrip e))
       else .error "Invalid email format") := by
  unfold validate_email
  rw [if_neg hs]

/-- A successful email validation returns the normalized form, which is
syntactically valid. -/
theorem validate_email_ok (e em : String) (h : validate_email e = .ok em) :
    em = strLower (pyStrip e) ∧ email_valid em = true := by
  by_cases hs : e = ""
  · subst hs
    rw [show validate_email "" = .error "Email is required and must be a string" from rfl] at h
    cases h
  · rw [validate_email_eq e hs] at h
    by_cases hv : email_valid (strLower (pyStrip e)) = true
    · rw [if_pos hv] at h
      injection h with h
      subst h
      exact ⟨rfl, hv⟩
    · rw [if_neg hv] at h
      cases h

/-- Any raw input whose normalization is a known-valid address
validates to that address. -/
theorem validate_email_of_norm (e em : String) (hnorm : strLower (pyStrip e) = em)
    (hv : email_valid em = true) : validate_email e = .ok em := by
  have hs : e ≠ "" := by
    rintro rfl
    rw [show strLower (pyStrip "") = "" from rfl] at hnorm
    subst hnorm
    rw [show email_valid "" = false from rfl] at hv
    cases hv
  rw [validate_email_eq e hs, hnorm, if_pos hv]

/-- The create-payload validator on valid fields returns the validated
triple. -/
theorem validate_create_user_data_ok (nm e pw n em p : String)
    (hn : validate_name nm = .ok n) (he : validate_email e = .ok em)
    (hp : validate_password pw = .ok p) :
    validate_create_user_data nm e pw = .ok (n, em, p) := by
  unfold validate_create_user_data
  rw [hn, he, hp]
  rfl

/-- Inserting a fresh email appends the row and returns the
four-field dict. -/
theorem create_user_fresh (hash : String → String) (db : DB) (n em p t : String)
    (hfresh : db.rows.any (fun r => r.email == em) = false) :
    create_user hash db n em p t =
      .ok ({ rows := db.rows ++ [⟨db.nextId, n, em, hash p, t, t⟩],
             nextId := db.nextId + 1 },
           [("id", .int db.nextId), ("name", .str n), ("email", .str em),
            ("created_at", .str t)]) := by
  unfold create_user create_user_db sqlite_insert
  simp only [Option.map_some']
  rw [hfresh]
  rfl

/-- Inserting an email that some stored row already holds raises the
duplicate error. -/
theorem create_user_dup (hash : String → String) (db : DB) (n em p t : String)
    (hdup : db.rows.any (fun r => r.email == em) = true) :
    create_user hash db n em p t = .error "Email already exists" := by
  unfold create_user create_user_db sqlite_insert
  simp only [Option.map_some']
  rw [hdup]
  rfl

/-- A create request whose validated email is already stored answers
with the 409 duplicate response. -/
theorem create_user_handler_dup (hash : String → String) (db : DB)
    (nm e pw t n em p : String)
    (hv : validate_create_user_data nm e pw = .ok (n, em, p))
    (hdup : db.rows.any (fun r => r.email == em) = true) :
    (create_user_handler hash db nm e pw t).2 =
      create_error_response "Email already exists" 409 := by
  unfold create_user_handler
  rw [hv]
  show (match create_user hash db n em p t with
        | .error msg => (db, create_error_response msg 409)
        | .ok (db', user) =>
          (db', { body := create_success_response (some (.dict user))
                    "User created successfully",
                  code := 201 })).2 = _
  rw [create_user_dup hash db n em p t hdup]

/-- C3: creating a second user whose normalized email equals a stored
one — whatever the case of the raw input — fails with the distinct
duplicate error mapped to 409 while the first create returns 201, and
the same distinct error arises from a uniqueness violation during
update, which the update handler also maps to 409. -/
theorem c3_duplicate_email_conflict :
    (∀ (hash : String → String) (db : DB)
       (nm1 e1 pw1 nm2 e2 pw2 t1 t2 n1 em p1 n2 p2 : String),
      validate_name nm1 = .ok n1 →
      validate_email e1 = .ok em →
      validate_password pw1 = .ok p1 →
      validate_name nm2 = .ok n2 →
      validate_password pw2 = .ok p2 →
      strLower (pyStrip e2) = em →
      db.rows.any (fun r => r.email == em) = false →
      (create_user_handler hash db nm1 e1 pw1 t1).2.code = 201 ∧
      (create_user_handler hash (create_user_handler hash db nm1 e1 pw1 t1).1
          nm2 e2 pw2 t2).2 =
        create_error_response "Email already exists" 409) ∧
    (∀ (db : DB) (uid : Int) (nm em' : Option String) (now : String),
      sqlite_update db uid nm em' now = .error .uniqueEmail →
      update_user db uid nm em' now = .error "Email already exists") ∧
    (∀ (db : DB) (s : String) (nm em' : Option String) (now : String)
       (uid : Int) (n' e' : Option String),
      validate_user_id s = .ok uid →
      validate_update_user_data nm em' = .ok (n', e') →
      update_user db uid n' e' now = .error "Email already exists" →
      (update_user_handler db s nm em' now).2 =
        create_error_response "Email already exists" 409) := by
  refine ⟨?_, ?_, ?_⟩
  · intro hash db nm1 e1 pw1 nm2 e2 pw2 t1 t2 n1 em p1 n2 p2
      hn1 he1 hp1 hn2 hp2 hnorm hfresh
    obtain ⟨-, hvalid⟩ := validate_email_ok e1 em he1
    have he2 : validate_email e2 = .ok em := validate_email_of_norm e2 em hnorm hvalid
    have hv1 : validate_create_user_data nm1 e1 pw1 = .ok (n1, em, p1) :=
      validate_create_user_data_ok nm1 e1 pw1 n1 em p1 hn1 he1 hp1
    have hv2 : validate_create_user_data nm2 e2 pw2 = .ok (n2, em, p2) :=
      validate_create_user_data_ok nm2 e2 pw2 n2 em p2 hn2 he2 hp2
    have hfirst : create_user_handler hash db nm1 e1 pw1 t1 =
        ({ rows := db.rows ++ [⟨db.nextId, n1, em, hash p1, t1, t1⟩],
           nextId := db.nextId + 1 },
         { body := create_success_response
             (some (.dict [("id", .int db.nextId), ("name", .str n1),
                           ("email", .str em), ("created_at", .str t1)]))
             "User created successfully",
           code := 201 }) := by
      unfold create_user_handler
      rw [hv1]
      show (match create_user hash db n1 em p1 t1 with
            | .error msg => (db, create_error_response msg 409)
            | .ok (db', user) =>
              (db', { body := create_success_response (some (.dict user))
                        "User created successfully",
                      code := 201 })) = _
      rw [create_user_fresh hash db n1 em p1 t1 hfresh]
    constructor
    · rw [hfirst]
    · rw [hfirst]
      refine create_user_handler_dup hash _ nm2 e2 pw2 t2 n2 em p2 hv2 ?_
      simp [List.any_append]
  · intro db uid nm em' now h
    unfold update_user
    rw [h]
  · intro db s nm em' now uid n' e' h1 h2 h3
    unfold update_user_handler
    rw [h1, h2]
    show (match update_user db uid n' e' now with
          | .error msg => (db, create_error_response msg 409)
          | .ok (db', some user) =>
            (db', { body := create_success_response
                      (some (.dict (dictPop user "password_hash")))
                      "User updated successfully",
                    code := 200 })
          | .ok (db', none) => (db', create_error_response "User not found" 404)).2 = _
    rw [h3]

/-- C3 witness: on the empty store, creating Alice with a mixed-case
email returns 201, then creating Bob with the same email in different
case and surrounding whitespace returns the 409 duplicate response. -/
theorem c3_witness :
    (create_user_handler hW emptyDB "Alice" "Alice@Example.COM" "passw0rd1" "t1").2.code
        = 201 ∧
    (create_user_handler hW
        (create_user_handler hW emptyDB "Alice" "Alice@Example.COM" "passw0rd1" "t1").1
        "Bob" " alice@EXAMPLE.com " "passw0rd2" "t2").2 =
      create_error_response "Email already exists" 409 :=
  c3_duplicate_email_conflict.1 hW emptyDB "Alice" "Alice@Example.COM" "passw0rd1"
    "Bob" " alice@EXAMPLE.com " "passw0rd2" "t1" "t2"
    "Alice" "alice@example.com" "passw0rd1" "Bob" "passw0rd2"
    (by rfl) (by rfl) (by rfl) (by rfl) (by rfl) (by rfl) (by rfl)

/-- C9: the `except sqlite3.IntegrityError` clauses of `create_user`
and `update_user` convert every integrity violation — whichever
constraint failed, including a NOT NULL violation with no duplicate
email in sight — into the single `ValueError("Email already exists")`,
which the create handler surfaces as a 409 conflict. -/
theorem c9_integrity_errors_collapse :
    (∀ (hash : String → String) (db : DB) (name email password : Option String)
       (now : String) (k : IntegrityKind),
      sqlite_insert db name email (password.map hash) now = .error k →
      create_user_db hash db name email password now =
        .error "Email already exists") ∧
    (∀ (db : DB) (uid : Int) (name email : Option String) (now : String)
       (k : IntegrityKind),
      sqlite_update db uid name email now = .error k →
      update_user db uid name email now = .error "Email already exists") ∧
    (∀ (hash : String → String) (db : DB) (e p now : String),
      create_user_db hash db none (some e) (some p) now =
        .error "Email already exists") ∧
    (∀ (hash : String → String) (db : DB) (nm e pw now msg n em p : String),
      validate_create_user_data nm e pw = .ok (n, em, p) →
      create_user hash db n em p now = .error msg →
      (create_user_handler hash db nm e pw now).2 =
        create_error_response msg 409) := by
  refine ⟨?_, ?_, ?_, ?_⟩
  · intro hash db name email password now k h
    unfold create_user_db
    rw [h]
  · intro db uid name email now k h
    unfold update_user
    rw [h]
  · intro hash db e p now
    rfl
  · intro hash db nm e pw now msg n em p h1 h2
    unfold create_user_handler
    rw [h1]
    show (match create_user hash db n em p now with
          | .error m => (db, create_error_response m 409)
          | .ok (db', user) =>
            (db', { body := create_success_response (some (.dict user))
                      "User created successfully",
                    code := 201 })).2 = _
    rw [h2]

/-- C9 witness: a NOT NULL violation on `name`, with no duplicate email
anywhere, still produces the duplicate-email error. -/
theorem c9_witness :
    create_user_db hW emptyDB none (some "x@y.zz") (some "passw0rd1") "t" =
      Except.error "Email already exists" :=
  c9_integrity_errors_collapse.1 hW emptyDB none (some "x@y.zz") (some "passw0rd1")
    "t" IntegrityKind.notNullName (by rfl)

end UserService
